import Mathlib

/-!
Verification of the recoil-profile optimization engine of Potku
(`src/modules/linear_optimization.py`, `src/modules/general_functions.py`)
against its natural-language specification.

Numbers are modelled by `ℚ`.  Python exceptions are modelled by `Except PyErr`
values; Python `while` loops become fuel-indexed recursion where `none` marks
fuel exhaustion (the loop still running).  Mutable `Point` objects shared
between a solution's point list and its `Peak`/`Valley` structures are
modelled as indices into the owning solution's point list (an arena), and the
in-place mutation of Python lists by `uniform_espe_lists` is modelled by a
reference/heap layer.
-/

namespace Potku

/-- An energy-spectrum sample `(x, y)`. -/
abbrev Pt := ℚ × ℚ

/-- An energy spectrum: an ordered list of `(x, y)` samples. -/
abbrev Espe := List Pt

/-- The Python exceptions that can arise in the embedded code. -/
inductive PyErr where
  | osError
  | valueError (msg : String)
  | subprocessError
  | notImplementedError
  | typeError
  | zeroDivisionError
  | indexError
  deriving DecidableEq, Repr

/-- Round-half-to-even of a rational to an integer, the idealisation of
Python's `round` (floats are idealised as exact rationals). -/
def roundHalfEven (q : ℚ) : ℤ :=
  let f := ⌊q⌋
  let r := q - f
  if r < 1/2 then f
  else if 1/2 < r then f + 1
  else if f % 2 = 0 then f else f + 1

/-- Python `round(x, 4)` as used in `uniform_espe_lists`. -/
def round4 (q : ℚ) : ℚ := (roundHalfEven (q * 10000) : ℚ) / 10000

/-- The leading-edge padding loop of `uniform_espe_lists`
(`general_functions.py` lines 771–780):
`while round(x, 4) >= target: lst.insert(0, (round(x, 4), 0)); x -= w`,
with `fuel` bounding the number of iterations (`none` = loop still running). -/
def padFront : Nat → ℚ → ℚ → ℚ → Espe → Option Espe
  | 0, x, target, _, lst =>
    if target ≤ round4 x then none else some lst
  | fuel + 1, x, target, w, lst =>
    if target ≤ round4 x then padFront fuel (x - w) target w ((round4 x, 0) :: lst)
    else some lst

/-- The trailing-edge padding loop of `uniform_espe_lists`
(`general_functions.py` lines 783–793):
`while round(x, 4) <= target: lst.append((round(x, 4), 0)); x += w`. -/
def padBack : Nat → ℚ → ℚ → ℚ → Espe → Option Espe
  | 0, x, target, _, lst =>
    if round4 x ≤ target then none else some lst
  | fuel + 1, x, target, w, lst =>
    if round4 x ≤ target then padBack fuel (x + w) target w (lst ++ [(round4 x, 0)])
    else some lst

/-- First half of `uniform_espe_lists`: make the leading x values match
(`general_functions.py` lines 769–780).  Indexing an empty list (Python
`IndexError`) is conflated with fuel exhaustion into `none`. -/
def uniform_front (fuel : Nat) (first second : Espe) (channel_width : ℚ) :
    Option (Espe × Espe) :=
  match first.head?, second.head? with
  | some f0, some s0 =>
    if s0.1 < f0.1 then
      match padFront fuel (f0.1 - channel_width) s0.1 channel_width first with
      | none => none
      | some first' => some (first', second)
    else if f0.1 < s0.1 then
      match padFront fuel (s0.1 - channel_width) f0.1 channel_width second with
      | none => none
      | some second' => some (first, second')
    else some (first, second)
  | _, _ => none

/-- Second half of `uniform_espe_lists`: make the trailing x values match
(`general_functions.py` lines 782–793). -/
def uniform_back (fuel : Nat) (first second : Espe) (channel_width : ℚ) :
    Option (Espe × Espe) :=
  match first.getLast?, second.getLast? with
  | some fl, some sl =>
    if sl.1 < fl.1 then
      match padBack fuel (sl.1 + channel_width) fl.1 channel_width second with
      | none => none
      | some second' => some (first, second')
    else if fl.1 < sl.1 then
      match padBack fuel (fl.1 + channel_width) sl.1 channel_width first with
      | none => none
      | some first' => some (first', second)
    else some (first, second)
  | _, _ => none

/-- `uniform_espe_lists(lists, channel_width)` from
`general_functions.py` lines 761–795: pad the two spectra with zero-valued
samples at their edges until the x ranges agree. -/
def uniform_espe_lists (fuel : Nat) (lists : Espe × Espe) (channel_width : ℚ) :
    Option (Espe × Espe) :=
  match uniform_front fuel lists.1 lists.2 channel_width with
  | none => none
  | some (first, second) => uniform_back fuel first second channel_width

/-! ### Geometry model: `Point`, `Peak`, `Valley`, solutions

A Python `Point` is a mutable `(x, y)` object shared between
`BaseSolution.points` and the owning `Peak`/`Valley` structures.  Points are
modelled as indices into the solution's point list (the arena), so a move
through a `Peak` is visible in the solution's point sequence, exactly as the
shared mutable objects behave in the source. -/

/-- Read point `i` of an arena (out-of-range reads never occur on the inputs
used; the default is irrelevant). -/
def getPt (a : Espe) (i : Nat) : Pt := a.getD i (0, 0)

/-- `point.set_x(x)`: update the x coordinate of point `i` in place. -/
def setPtX (a : Espe) (i : Nat) (x : ℚ) : Espe := a.set i (x, (getPt a i).2)

/-- `point.set_y(y)`: update the y coordinate of point `i` in place. -/
def setPtY (a : Espe) (i : Nat) (y : ℚ) : Espe := a.set i ((getPt a i).1, y)

/-- `point.set_x(point.get_x() + d)`, the idiom used by the move methods. -/
def bumpX (a : Espe) (i : Nat) (d : ℚ) : Espe := setPtX a i ((getPt a i).1 + d)

/-- `point.set_y(point.get_y() + d)`. -/
def bumpY (a : Espe) (i : Nat) (d : ℚ) : Espe := setPtY a i ((getPt a i).2 + d)

/-- `Peak` from `linear_optimization.py` lines 389–402: optional left-low,
left-high, right-high, optional right-low points plus the neighbouring
profile points, all as arena indices (`none` = Python `None`). -/
structure Peak where
  ll : Option Nat
  lh : Nat
  rh : Nat
  rl : Option Nat
  prev_point : Option Nat
  next_point : Option Nat
  deriving DecidableEq, Repr

/-- `Valley` from `linear_optimization.py` lines 469–478. -/
structure Valley where
  ll : Nat
  rl : Nat
  prev_point : Option Nat
  next_point : Option Nat
  deriving DecidableEq, Repr

/-- `BaseSolution` (`linear_optimization.py` lines 503–508): the ordered
point sequence together with its peak/valley views. -/
structure BaseSolution where
  points : Espe
  peaks : List Peak
  valleys : List Valley
  deriving DecidableEq, Repr

/-- `np.clip(v, a_min, a_max)` with optional bounds: the lower bound is
applied first, then the upper bound. -/
def npClip (v : ℚ) (lo hi : Option ℚ) : ℚ :=
  let v1 := match lo with | some l => max v l | none => v
  match hi with | some h => min v1 h | none => v1

/-- `Peak._move_point` (`linear_optimization.py` lines 419–442): the static
helper that clips a point's move at the neighbouring points and reports
whether clipping happened.  A source TODO says to use it from the move
methods to prevent overlapping, but no caller exists in this snapshot. -/
def Peak.move_point (a : Espe) (i : Nat) (x y : ℚ)
    (prev_point next_point : Option Nat) : Espe × Bool :=
  let clipped := false
  let step1 :=
    if x ≠ 0 then
      let new_x := (getPt a i).1 + x
      let clipped_x := npClip new_x (prev_point.map (fun j => (getPt a j).1))
        (next_point.map (fun j => (getPt a j).1))
      (setPtX a i clipped_x, if new_x = clipped_x then clipped else true)
    else (a, clipped)
  let a1 := step1.1
  let clipped1 := step1.2
  if y ≠ 0 then
    let new_y := (getPt a1 i).2 + y
    let clipped_y := npClip new_y (prev_point.map (fun j => (getPt a1 j).2))
      (next_point.map (fun j => (getPt a1 j).2))
    (setPtY a1 i clipped_y, if new_y = clipped_y then clipped1 else true)
  else (a1, clipped1)

/-- `Peak.move_x` (`linear_optimization.py` lines 444–451): move the peak
right by `amount` (non-negative amounts only).  The left pair moves when both
`prev_point` and `ll` are present, the right pair when both `next_point` and
`rl` are present.  No clamping is applied and nothing is returned. -/
def Peak.move_x (p : Peak) (a : Espe) (amount : ℚ) : Espe :=
  if 0 ≤ amount then
    let a1 :=
      match p.prev_point, p.ll with
      | some _, some i => bumpX (bumpX a i amount) p.lh amount
      | _, _ => a
    match p.next_point, p.rl with
    | some _, some i => bumpX (bumpX a1 p.rh amount) i amount
    | _, _ => a1
  else a

/-- `Peak.move_y` (`linear_optimization.py` lines 453–455). -/
def Peak.move_y (p : Peak) (a : Espe) (amount : ℚ) : Espe :=
  bumpY (bumpY a p.lh amount) p.rh amount

/-- `Peak.center` (`linear_optimization.py` lines 405–409). -/
def Peak.center (p : Peak) (a : Espe) : Pt :=
  (((getPt a p.lh).1 + (getPt a p.rh).1) / 2,
   ((getPt a p.lh).2 + (getPt a p.rh).2) / 2)

/-- `Peak.set_x` (`linear_optimization.py` lines 457–459). -/
def Peak.set_x (p : Peak) (a : Espe) (x : ℚ) : Espe :=
  p.move_x a (x - (p.center a).1)

/-- `Peak.set_y` (`linear_optimization.py` lines 461–463). -/
def Peak.set_y (p : Peak) (a : Espe) (y : ℚ) : Espe :=
  p.move_y a (y - (p.center a).2)

/-- `Valley.move_y` (`linear_optimization.py` lines 490–493); `if amount:`
is Python float truthiness. -/
def Valley.move_y (v : Valley) (a : Espe) (amount : ℚ) : Espe :=
  if amount ≠ 0 then bumpY (bumpY a v.ll amount) v.rl amount else a

/-- `Valley.center` (`linear_optimization.py` lines 480–484). -/
def Valley.center (v : Valley) (a : Espe) : Pt :=
  (((getPt a v.ll).1 + (getPt a v.rl).1) / 2,
   ((getPt a v.ll).2 + (getPt a v.rl).2) / 2)

/-- `Valley.set_y` (`linear_optimization.py` lines 495–497). -/
def Valley.set_y (v : Valley) (a : Espe) (y : ℚ) : Espe :=
  v.move_y a (y - (v.center a).2)

/-- `SolutionBox4.__init__` (`linear_optimization.py` lines 511–516) raises
`NotImplementedError` unconditionally. -/
def solutionBox4 (_points : Espe) : Except PyErr BaseSolution :=
  .error .notImplementedError

/-- `SolutionBox6.__init__` (`linear_optimization.py` lines 519–531).  The
constructor indexes `points[0] … points[5]`; a shorter list raises
`IndexError` in Python. -/
def solutionBox6 (points : Espe) : Except PyErr BaseSolution :=
  if 6 ≤ points.length then
    .ok { points := points
        , peaks := [{ ll := some 1, lh := 2, rh := 3, rl := some 4,
                      prev_point := some 0, next_point := some 5 }]
        , valleys :=
            [ { ll := 0, rl := 2, prev_point := none, next_point := some 2 },
              { ll := 4, rl := 5, prev_point := some 3, next_point := none } ] }
  else .error .indexError

/-- `SolutionPeak8.__init__` (`linear_optimization.py` lines 534–548). -/
def solutionPeak8 (points : Espe) : Except PyErr BaseSolution :=
  if 8 ≤ points.length then
    .ok { points := points
        , peaks :=
            [ { ll := none, lh := 0, rh := 1, rl := some 2,
                prev_point := none, next_point := some 3 },
              { ll := some 3, lh := 4, rh := 5, rl := some 6,
                prev_point := some 2, next_point := some 7 } ]
        , valleys :=
            [ { ll := 2, rl := 3, prev_point := some 1, next_point := some 4 },
              { ll := 6, rl := 7, prev_point := some 5, next_point := none } ] }
  else .error .indexError

/-- `SolutionPeak10.__init__` (`linear_optimization.py` lines 551–556) raises
`NotImplementedError` unconditionally. -/
def solutionPeak10 (_points : Espe) : Except PyErr BaseSolution :=
  .error .notImplementedError

/-- `get_solution6(x1, x2)` (`linear_optimization.py` lines 559–577): a
6-point box solution with the high plateau from `x1` to `x2`. -/
def get_solution6 (x1 x2 : ℚ) : Except PyErr BaseSolution :=
  let min_x : ℚ := 0
  let max_x : ℚ := 120
  let min_y : ℚ := 1/10000
  let max_y : ℚ := 1
  solutionBox6
    [ (min_x, min_y), (x1, min_y), (x1 + 1/100, max_y),
      (x2 - 1/1000, max_y), (x2, min_y), (max_x, min_y) ]

/-- The spec's ordering invariant: the point sequence is monotonically
non-decreasing in x. -/
def xMonotone (l : Espe) : Prop := List.Chain' (fun p q => p.1 ≤ q.1) l

/-! ### Spectrum comparator -/

/-- Modelled from the spec: `math_functions.calculate_area` (the module is not
under `src/`) — mode "area" "integrates the absolute/point-wise difference
between the two (by construction, equal-length, x-aligned) sequences",
modelled as the discrete sum of the absolute y differences. -/
def calculate_area (optim measured : Espe) : ℚ :=
  ((optim.zip measured).map (fun pq => |pq.1.2 - pq.2.2|)).sum

/-- The call `gf.uniform_espe_lists(optim_espe, self.measured_espe,
channel_width=...)` in `_get_spectra_difference`
(`linear_optimization.py` lines 163–165).  The callee's signature is
`uniform_espe_lists(lists, channel_width)` (`general_functions.py` line 761),
so Python binds `optim_espe ↦ lists`, `self.measured_espe ↦ channel_width`
and then rejects the duplicate `channel_width` keyword with `TypeError`
before the function body runs. -/
def uniform_espe_lists_mismatched_call (_optim _measured : Espe) (_cw : ℚ) :
    Except PyErr (Espe × Espe) :=
  .error .typeError

/-- The scoring part of `_get_spectra_difference`
(`linear_optimization.py` lines 167–177), applied to the aligned spectra:
mode "area" integrates, mode "pointwise" is the mean squared error of the
y values (`sum(diff) / len(diff)` raises `ZeroDivisionError` on empty input). -/
def spectra_difference_body (optim measured : Espe) (optimize_by_area : Bool) :
    Except PyErr ℚ :=
  if optimize_by_area then .ok (calculate_area optim measured)
  else
    let diff := (optim.zip measured).map (fun pq => (pq.1.2 - pq.2.2) ^ 2)
    if diff.length = 0 then .error .zeroDivisionError
    else .ok (diff.sum / (diff.length : ℚ))

/-- `LinearOptimization._get_spectra_difference`
(`linear_optimization.py` lines 157–177). -/
def get_spectra_difference (optim measured : Espe) (channel_width : ℚ)
    (optimize_by_area : Bool) : Except PyErr ℚ := do
  let (o, m) ← uniform_espe_lists_mismatched_call optim measured channel_width
  spectra_difference_body o m optimize_by_area

/-- The value of an evaluation result, with errors read as 0 (used only to
state hypothesis-free non-negativity). -/
def okValue (r : Except PyErr ℚ) : ℚ :=
  match r with
  | .ok v => v
  | .error _ => 0

/-! ### Optimizer lifecycle

`modules/optimization.py` (the `BaseOptimizer` contract), `Point`,
`RecoilElement` and the `ElementSimulation` collaborator are not under
`src/`; their operations are modelled from the spec as recorded events and
fallible stubs supplied through `HookEnv`. -/

/-- `OptimizationState` lifecycle tags. -/
inductive OptimizationState where
  | preparing
  | running
  | finished
  deriving DecidableEq, Repr

/-- `OptimizationType` (recoil or fluence optimization). -/
inductive OptimizationType where
  | recoil
  | fluence
  deriving DecidableEq, Repr

/-- Observable actions of one `start_optimization` run.  `simInvoked` marks a
simulator invocation (`run_initial_simulation` or `calculate_espe`);
`onError`/`onCompleted` are the reporting callbacks with their message
state and payload; `cleanUp` is the collaborator clean-up operation. -/
inductive Event where
  | simInvoked
  | onError (state : OptimizationState) (error : String)
  | onCompleted (state : OptimizationState) (payload : String)
  | cleanUp
  | resultsToFile
  deriving DecidableEq, Repr

/-- The optimizer configuration fields read by the embedded code. -/
structure OptCfg where
  optimization_type : OptimizationType
  sol_size : Nat
  rec_type : String
  upper_limits : List ℚ
  lower_limits : List ℚ
  optimize_by_area : Bool
  channel_width : ℚ

/-- Modelled from the spec: behaviours of the measurement/simulator
collaborators and `BaseOptimizer` hook operations absent from `src/`.  Each
hook either returns or raises; `measurement_present` is whether
`self.measurement` is non-`None`; `calculate_espe` is the simulated spectrum
the collaborator produces for a candidate; `measured_espe` is the
pre-processed measured spectrum. -/
structure HookEnv where
  measurement_present : Bool
  prepare_measured_spectra : Except PyErr Unit
  combine_previous_erd_files : Except PyErr Unit
  modify_measurement : Except PyErr Unit
  skip_simulation : Bool
  run_initial_simulation : Except PyErr Unit
  calculate_espe : Except PyErr Espe
  measured_espe : Espe

/-- Modelled from the spec: `RecoilElement` binds an element identity to a
point sequence, a colour tag and a name. -/
structure RecoilElement where
  points : Espe
  color : String
  name : String
  deriving DecidableEq, Repr

/-- `LinearOptimization.form_recoil` (`linear_optimization.py`
lines 179–188). -/
def form_recoil (sol : BaseSolution) (name : String) : RecoilElement :=
  { points := sol.points, color := "red",
    name := if name = "" then "opt" else name }

/-- `LinearOptimization.initialize_solution`
(`linear_optimization.py` lines 190–256).  The `x_upper`/`y_upper`/
`x_lower`/`y_lower` locals computed from the limits (lines 192–203) are dead
in this snapshot and are not repeated here.  The 8-point coordinates are the
active `coords` list of lines 227–236. -/
def init_solution (cfg : OptCfg) : Except PyErr BaseSolution :=
  match cfg.optimization_type with
  | .recoil =>
    if cfg.rec_type = "box" then
      if cfg.sol_size = 5 then .error .notImplementedError
      else if cfg.sol_size = 7 then .error .notImplementedError
      else .error (.valueError ("Unsupported sol_size " ++ toString cfg.sol_size
        ++ " for recoil type " ++ cfg.rec_type))
    else if cfg.rec_type = "two-peak" then
      if cfg.sol_size = 9 then
        solutionPeak8
          [ (0, 1/10000), (30, 1/10000), (3001/100, 1/10000),
            (5999/100, 1/10000), (60, 1/10000), (8999/100, 1/10000),
            (90, 1/10000), (120, 1/10000) ]
      else if cfg.sol_size = 11 then .error .notImplementedError
      else .error (.valueError ("Unsupported sol_size " ++ toString cfg.sol_size
        ++ " for recoil type " ++ cfg.rec_type))
    else .error (.valueError ("Unknown recoil type " ++ cfg.rec_type))
  | .fluence => .error .notImplementedError

/-- `LinearOptimization.evaluate_solution`
(`linear_optimization.py` lines 258–277): realize the solution as a
`RecoilElement`, invoke the simulator collaborator, score against the
measured spectrum.  Returns the emitted events and the result. -/
def evaluate_solution (cfg : OptCfg) (env : HookEnv) (sol : BaseSolution) :
    List Event × Except PyErr ℚ :=
  match cfg.optimization_type with
  | .recoil =>
    let _recoil := form_recoil sol ""
    match env.calculate_espe with
    | .error e => ([.simInvoked], .error e)
    | .ok espe =>
      ([.simInvoked],
        get_spectra_difference espe env.measured_espe cfg.channel_width
          cfg.optimize_by_area)
  | .fluence => ([], .error .notImplementedError)

/-- The candidate loop of `LinearOptimization._fit_simulation`
(`linear_optimization.py` lines 314–320): evaluate `get_solution6(x, x + 1)`
for each window start in order, stopping at the first exception. -/
def fit_loop (cfg : OptCfg) (env : HookEnv) : List Nat → List Event × Except PyErr Unit
  | [] => ([], .ok ())
  | i :: rest =>
    match get_solution6 (i : ℚ) ((i : ℚ) + 1) with
    | .error e => ([], .error e)
    | .ok sol =>
      let (tr, r) := evaluate_solution cfg env sol
      match r with
      | .error e => (tr, .error e)
      | .ok _ =>
        let (tr2, r2) := fit_loop cfg env rest
        (tr ++ tr2, r2)

/-- `LinearOptimization._fit_simulation`
(`linear_optimization.py` lines 312–327): `xs = np.linspace(0, 120, 121)[:-1]`
is `0, 1, …, 119` with window width 1; after the sweep the method
unconditionally raises `NotImplementedError`. -/
def fit_simulation (cfg : OptCfg) (env : HookEnv) :
    List Event × Except PyErr BaseSolution :=
  let (tr, r) := fit_loop cfg env (List.range 120)
  match r with
  | .error e => (tr, .error e)
  | .ok _ => (tr, .error .notImplementedError)

/-- `LinearOptimization._optimize` (`linear_optimization.py` lines 329–336);
the deep copy of the points and `_get_bounds()` are computed but unused. -/
def optimize_run (cfg : OptCfg) (env : HookEnv) (_sol : BaseSolution) :
    List Event × Except PyErr BaseSolution :=
  fit_simulation cfg env

/-- `LinearOptimization._prepare_optimization`
(`linear_optimization.py` lines 108–155) with the hook operations taken
from `env`.  Returns the emitted events and either the initial solution
(stored as `self.solution`) or the exception raised. -/
def prepare_opt (cfg : OptCfg) (env : HookEnv) (initial : Option BaseSolution) :
    List Event × Except PyErr BaseSolution :=
  if env.measurement_present = false then
    ([], .error (.valueError
      "Optimization could not be prepared, no measurement defined."))
  else
    match env.prepare_measured_spectra with
    | .error e => ([], .error e)
    | .ok _ =>
      match env.combine_previous_erd_files with
      | .error e => ([], .error e)
      | .ok _ =>
        match env.modify_measurement with
        | .error e => ([], .error e)
        | .ok _ =>
          match (match initial with
                 | some s => Except.ok s
                 | none => init_solution cfg) with
          | .error e => ([], .error e)
          | .ok sol =>
            if env.skip_simulation then ([], .ok sol)
            else
              match env.run_initial_simulation with
              | .error e => ([Event.simInvoked], .error e)
              | .ok _ => ([Event.simInvoked], .ok sol)

/-- The exception classes caught by `start_optimization`
(`linear_optimization.py` line 349): `OSError`, `ValueError`,
`subprocess.SubprocessError`. -/
def catchable : PyErr → Bool
  | .osError => true
  | .valueError _ => true
  | .subprocessError => true
  | _ => false

/-- Python `str(e)` for the embedded exceptions, as interpolated into the
`on_error` message. -/
def pyMsg : PyErr → String
  | .osError => "OSError"
  | .valueError m => m
  | .subprocessError => "SubprocessError"
  | .notImplementedError => "NotImplementedError"
  | .typeError => "TypeError"
  | .zeroDivisionError => "ZeroDivisionError"
  | .indexError => "IndexError"

/-- `LinearOptimization.start_optimization`
(`linear_optimization.py` lines 339–383): prepare inside a
`try/except (OSError, ValueError, SubprocessError)` whose handler emits one
FINISHED error message, cleans up and returns; then run `_optimize`, form
the first/intermediate/last recoils, clean up, export results and emit the
completed message. -/
def start_optimization (cfg : OptCfg) (env : HookEnv)
    (starting : Option BaseSolution) : List Event × Except PyErr Unit :=
  let pr := prepare_opt cfg env starting
  match pr.2 with
  | .error e =>
    if catchable e then
      (pr.1 ++ [Event.onError .finished
          ("Preparation for optimization failed: " ++ pyMsg e),
        Event.cleanUp], .ok ())
    else (pr.1, .error e)
  | .ok sol =>
    let orun := optimize_run cfg env sol
    match orun.2 with
    | .error e => (pr.1 ++ orun.1, .error e)
    | .ok result =>
      match cfg.optimization_type with
      | .recoil =>
        let _recoils := [form_recoil sol "optfirst", form_recoil sol "optmed",
          form_recoil result "optlast"]
        (pr.1 ++ orun.1 ++ [Event.cleanUp, Event.resultsToFile,
          Event.onCompleted .finished "Unknown"], .ok ())
      | .fluence => (pr.1 ++ orun.1, .error .notImplementedError)

/-- A terminal report: an `on_error` or `on_completed` callback carrying the
FINISHED state. -/
def isTerminalReport : Event → Bool
  | .onError .finished _ => true
  | .onCompleted .finished _ => true
  | _ => false

/-- Number of terminal FINISHED reports in a trace. -/
def countTerminal (tr : List Event) : Nat := (tr.filter isTerminalReport).length

/-! ### Reference layer for in-place mutation (frame effects) -/

/-- A heap of Python list objects, addressed by reference. -/
abbrev Heap := Nat → Espe

/-- Dereference a list object. -/
def heapGet (h : Heap) (r : Nat) : Espe := h r

/-- In-place update of the list object behind `r`. -/
def heapSet (h : Heap) (r : Nat) (v : Espe) : Heap :=
  fun i => if i = r then v else h i

/-- Reference-level view of `uniform_espe_lists`: Python `list.insert` and
`list.append` mutate the list objects behind the two references in place,
and the function returns the very objects it received
(`return first, second`, `general_functions.py` line 795). -/
def uniform_espe_lists_ref (fuel : Nat) (h : Heap) (r1 r2 : Nat) (w : ℚ) :
    Option (Heap × Nat × Nat) :=
  match uniform_espe_lists fuel (heapGet h r1, heapGet h r2) w with
  | none => none
  | some (f, s) => some (heapSet (heapSet h r1 f) r2 s, r1, r2)

/-! ### Uniform grids (used to state the corrected alignment claim) -/

/-- The x values of `l` are the uniform grid `az/10000, (az+wz)/10000, …`
(all exact at four decimals, spacing `wz/10000`). -/
def IsGrid (az wz : ℤ) (l : Espe) : Prop :=
  ∀ i, i < l.length → (l.getD i (0, 0)).1 = ((az + (i : ℤ) * wz : ℤ) : ℚ) / 10000

instance (az wz : ℤ) (l : Espe) : Decidable (IsGrid az wz l) := by
  unfold IsGrid
  exact Nat.decidableBallLT _ _

/-- The zero-valued grid samples inserted by the padding loops:
`(tz/10000, 0), ((tz+wz)/10000, 0), …` (`n` samples). -/
def gridPts (tz wz : ℤ) (n : Nat) : Espe :=
  (List.range n).map (fun (i : ℕ) => (((tz + (i : ℤ) * wz : ℤ) : ℚ) / 10000, 0))

/-- Equality of embedded exception results is decidable. -/
instance {e a : Type} [DecidableEq e] [DecidableEq a] : DecidableEq (Except e a)
  | .ok x, .ok y =>
    if h : x = y then .isTrue (by rw [h]) else .isFalse (by intro hc; cases hc; exact h rfl)
  | .error x, .error y =>
    if h : x = y then .isTrue (by rw [h]) else .isFalse (by intro hc; cases hc; exact h rfl)
  | .ok _, .error _ => .isFalse (by intro hc; cases hc)
  | .error _, .ok _ => .isFalse (by intro hc; cases hc)

/-! ## Theorems -/

/-- `round(x, 4)` is the identity on rationals exact at four decimals. -/
theorem round4_int (n : ℤ) : round4 ((n : ℚ) / 10000) = (n : ℚ) / 10000 := by
  unfold round4 roundHalfEven
  have h : ((n : ℚ) / 10000) * 10000 = (n : ℚ) := by
    rw [div_mul_cancel₀]
    norm_num
  rw [h]
  simp [Int.floor_intCast]

/-- C1: the spec claims that for valid 6- and 8-point sequences the point
sequence stays x-monotone after any `move_x`/`move_y` call, with moves
clamped at boundaries.  The code has no clamping in `Peak.move_x`: on
`get_solution6(30, 60)` (x-monotone as constructed), `peaks[0].move_x(1000)`
drives `points[4]` to x = 1060, past `next_point` at x = 120, so the
sequence is no longer x-monotone. -/
theorem C1_move_x_breaks_monotonicity :
    get_solution6 30 60 = .ok
      ⟨[(0, 1/10000), (30, 1/10000), (3001/100, 1), (59999/1000, 1),
        (60, 1/10000), (120, 1/10000)],
       [⟨some 1, 2, 3, some 4, some 0, some 5⟩],
       [⟨0, 2, none, some 2⟩, ⟨4, 5, some 3, none⟩]⟩
    ∧ xMonotone [(0, 1/10000), (30, 1/10000), (3001/100, 1), (59999/1000, 1),
        (60, 1/10000), (120, 1/10000)]
    ∧ Peak.move_x ⟨some 1, 2, 3, some 4, some 0, some 5⟩
        [(0, 1/10000), (30, 1/10000), (3001/100, 1), (59999/1000, 1),
         (60, 1/10000), (120, 1/10000)] 1000
      = [(0, 1/10000), (1030, 1/10000), (103001/100, 1), (1059999/1000, 1),
         (1060, 1/10000), (120, 1/10000)]
    ∧ ¬ xMonotone [(0, 1/10000), (1030, 1/10000), (103001/100, 1),
        (1059999/1000, 1), (1060, 1/10000), (120, 1/10000)] := by
  refine ⟨?_, ?_, ?_, ?_⟩
  · norm_num [get_solution6, solutionBox6]
  · norm_num [xMonotone, List.chain'_cons]
  · norm_num [Peak.move_x, bumpX, setPtX, getPt]
  · norm_num [xMonotone, List.chain'_cons]

/-- C4: the spec claims every move that would cross a neighbour is clamped at
the neighbour's coordinate with `clipped = true` reported.  `Peak.move_x`
applies the move unclamped (point 4 ends at 1060, past the neighbour at
120) and returns nothing, while the clamping-and-reporting behaviour exists
only in the unused static helper `Peak._move_point` (which does clamp the
same move to 120 and report `true`). -/
theorem C4_moves_not_clamped :
    (getPt (Peak.move_x ⟨some 1, 2, 3, some 4, some 0, some 5⟩
        [(0, 1/10000), (30, 1/10000), (3001/100, 1), (59999/1000, 1),
         (60, 1/10000), (120, 1/10000)] 1000) 4).1 = 1060
    ∧ (getPt (Peak.move_x ⟨some 1, 2, 3, some 4, some 0, some 5⟩
        [(0, 1/10000), (30, 1/10000), (3001/100, 1), (59999/1000, 1),
         (60, 1/10000), (120, 1/10000)] 1000) 5).1 = 120
    ∧ Peak.move_point
        [(0, 1/10000), (30, 1/10000), (3001/100, 1), (59999/1000, 1),
         (60, 1/10000), (120, 1/10000)] 4 1000 0 (some 3) (some 5)
      = ([(0, 1/10000), (30, 1/10000), (3001/100, 1), (59999/1000, 1),
          (120, 1/10000), (120, 1/10000)], true) := by
  refine ⟨?_, ?_, ?_⟩
  · norm_num [Peak.move_x, bumpX, setPtX, getPt]
  · norm_num [Peak.move_x, bumpX, setPtX, getPt]
  · norm_num [Peak.move_point, npClip, setPtX, setPtY, getPt]

/-- C5: every unsupported solution-shape request — `sol_size = 5` with recoil
type "box", the reserved 4-point box (`SolutionBox4`), the reserved 10-point
double peak (`SolutionPeak10`, `sol_size = 11`), — fails fast with the
not-implemented error and produces no solution value. -/
theorem C5_unsupported_shapes (ul ll : List ℚ) (cw : ℚ) (area : Bool)
    (pts : Espe) :
    init_solution ⟨.recoil, 5, "box", ul, ll, area, cw⟩
        = .error .notImplementedError
    ∧ init_solution ⟨.recoil, 11, "two-peak", ul, ll, area, cw⟩
        = .error .notImplementedError
    ∧ solutionBox4 pts = .error .notImplementedError
    ∧ solutionPeak10 pts = .error .notImplementedError :=
  ⟨rfl, rfl, rfl, rfl⟩

/-- C2: the claim that `align` always returns two sequences of equal length
fails: an already-aligned pair with different interior sampling is returned
unchanged with lengths 2 and 3. -/
theorem C2_counterexample :
    uniform_espe_lists 5 ([((0:ℚ),1),(1,1)], [((0:ℚ),1),(1/2,1),(1,1)]) 1
      = some ([((0:ℚ),1),(1,1)], [((0:ℚ),1),(1/2,1),(1,1)])
    ∧ ([((0:ℚ),1),(1,1)] : Espe).length
        ≠ ([((0:ℚ),1),(1/2,1),(1,1)] : Espe).length :=
  ⟨rfl, by decide⟩

/-- C3: with a simulator stub echoing the measured spectrum,
`evaluate_solution` does not return 0: it raises `TypeError`, because
`_get_spectra_difference` passes the two spectra as separate positional
arguments to `uniform_espe_lists(lists, channel_width)`.  The source's
post-alignment scoring body does evaluate to 0 on equal spectra. -/
theorem C3_evaluate_raises :
    ((get_solution6 30 60).toOption.map (fun s =>
        evaluate_solution ⟨.recoil, 7, "box", [], [], false, 1/40⟩
          ⟨true, .ok (), .ok (), .ok (), false, .ok (),
            .ok [((0:ℚ),1/10),(1,1/10)], [((0:ℚ),1/10),(1,1/10)]⟩ s)
      = some ([Event.simInvoked], .error .typeError))
    ∧ spectra_difference_body [((0:ℚ),1/10),(1,1/10)] [((0:ℚ),1/10),(1,1/10)]
        false = .ok 0 := by
  refine ⟨rfl, ?_⟩
  norm_num [spectra_difference_body]

/-- Swapping the spectra flips each difference's sign, which the square
cancels. -/
theorem sq_diff_zip_comm (a b : Espe) :
    (a.zip b).map (fun pq => (pq.1.2 - pq.2.2) ^ 2)
      = (b.zip a).map (fun pq => (pq.1.2 - pq.2.2) ^ 2) := by
  induction a generalizing b with
  | nil => cases b <;> simp
  | cons x xs ih =>
    cases b with
    | nil => simp
    | cons y ys =>
      simp only [List.zip_cons_cons, List.map_cons, ih ys, List.cons.injEq,
        Prod.mk.injEq, and_true]
      ring

/-- C9: the difference operation as written raises `TypeError` on every call
(the `uniform_espe_lists` argument-binding bug), shown here on an aligned
pair; its post-alignment scoring body is symmetric under swapping the two
spectra in pointwise mode, and non-negative in both modes. -/
theorem C9_difference_properties :
    (get_spectra_difference [((0:ℚ),1)] [((0:ℚ),1)] 1 false
        = .error .typeError)
    ∧ (∀ a b : Espe, spectra_difference_body a b false
        = spectra_difference_body b a false)
    ∧ (∀ (a b : Espe) (mode : Bool),
        0 ≤ okValue (spectra_difference_body a b mode)) := by
  refine ⟨rfl, ?_, ?_⟩
  · intro a b
    unfold spectra_difference_body
    simp only [Bool.false_eq_true, if_false]
    rw [sq_diff_zip_comm a b]
  · intro a b mode
    cases mode with
    | true =>
      simp only [spectra_difference_body, if_true, okValue]
      apply List.sum_nonneg
      intro x hx
      obtain ⟨pq, _, rfl⟩ := List.mem_map.mp hx
      exact abs_nonneg _
    | false =>
      simp only [spectra_difference_body, Bool.false_eq_true, if_false]
      split
      · simp [okValue]
      · simp only [okValue]
        apply div_nonneg
        · apply List.sum_nonneg
          intro x hx
          obtain ⟨pq, _, rfl⟩ := List.mem_map.mp hx
          positivity
        · positivity

/-- C8: `align` is idempotent — on a pair whose first and last x values
already agree, none of the four padding branches fires and both lists are
returned unchanged, for any fuel bound and channel width. -/
theorem C8_align_idempotent (fuel : Nat) (first second : Espe) (w : ℚ)
    (f0 s0 fl sl : Pt)
    (h0f : first.head? = some f0) (h0s : second.head? = some s0)
    (hlf : first.getLast? = some fl) (hls : second.getLast? = some sl)
    (hx0 : f0.1 = s0.1) (hxl : fl.1 = sl.1) :
    uniform_espe_lists fuel (first, second) w = some (first, second) := by
  unfold uniform_espe_lists uniform_front uniform_back
  simp only [h0f, h0s, hlf, hls, hx0, hxl, lt_self_iff_false, if_false]

/-- Witness for C8 at an aligned concrete pair of spectra. -/
theorem C8_align_idempotent_witness :
    uniform_espe_lists 3 ([((0:ℚ),2),(1,3)], [((0:ℚ),5),(1/2,6),(1,7)]) 1
      = some ([((0:ℚ),2),(1,3)], [((0:ℚ),5),(1/2,6),(1,7)]) :=
  C8_align_idempotent 3 _ _ 1 (0,2) (0,5) (1,3) (1,7) rfl rfl rfl rfl rfl rfl

/-- Terminal-report counting distributes over trace concatenation. -/
theorem countTerminal_append (a b : List Event) :
    countTerminal (a ++ b) = countTerminal a + countTerminal b := by
  simp [countTerminal, List.filter_append]

/-- Preparation emits no terminal report itself (only, possibly, a simulator
invocation). -/
theorem prepare_no_terminal (cfg : OptCfg) (env : HookEnv)
    (initial : Option BaseSolution) :
    countTerminal (prepare_opt cfg env initial).1 = 0 := by
  unfold prepare_opt
  repeat' split
  all_goals simp [countTerminal, isTerminalReport]

/-- In this snapshot every candidate evaluation raises: either the simulator
collaborator raises, or the mismatched `uniform_espe_lists` call raises
`TypeError` (or the fluence branch raises `NotImplementedError`). -/
theorem evaluate_solution_errors (cfg : OptCfg) (env : HookEnv)
    (sol : BaseSolution) :
    ∃ e, (evaluate_solution cfg env sol).2 = .error e := by
  unfold evaluate_solution
  cases hc : cfg.optimization_type with
  | recoil =>
    cases he : env.calculate_espe with
    | error e => exact ⟨e, by simp [he]⟩
    | ok espe =>
      refine ⟨.typeError, ?_⟩
      simp only [he]
      rfl
  | fluence => exact ⟨.notImplementedError, by simp⟩

/-- Candidate evaluation emits no terminal report. -/
theorem evaluate_no_terminal (cfg : OptCfg) (env : HookEnv)
    (sol : BaseSolution) :
    countTerminal (evaluate_solution cfg env sol).1 = 0 := by
  unfold evaluate_solution
  repeat' split
  all_goals simp [countTerminal, isTerminalReport]

/-- The sweep loop emits no terminal report. -/
theorem fit_loop_no_terminal (cfg : OptCfg) (env : HookEnv) (l : List Nat) :
    countTerminal (fit_loop cfg env l).1 = 0 := by
  induction l with
  | nil => simp [fit_loop, countTerminal]
  | cons i rest ih =>
    unfold fit_loop
    cases hg : get_solution6 (i : ℚ) ((i : ℚ) + 1) with
    | error e => simp [countTerminal]
    | ok sol =>
      have h1 := evaluate_no_terminal cfg env sol
      cases hr : (evaluate_solution cfg env sol).2 with
      | error e => simpa [hr] using h1
      | ok v => simp [hr, countTerminal_append, h1, ih]

/-- A non-empty sweep raises at its first candidate. -/
theorem fit_loop_cons_error (cfg : OptCfg) (env : HookEnv) (i : Nat)
    (rest : List Nat) :
    ∃ e, (fit_loop cfg env (i :: rest)).2 = .error e := by
  unfold fit_loop
  cases hg : get_solution6 (i : ℚ) ((i : ℚ) + 1) with
  | error e => exact ⟨e, by simp⟩
  | ok sol =>
    obtain ⟨e, he⟩ := evaluate_solution_errors cfg env sol
    refine ⟨e, ?_⟩
    simp [he]

/-- `_fit_simulation` always raises in this snapshot. -/
theorem fit_simulation_errors (cfg : OptCfg) (env : HookEnv) :
    ∃ e, (fit_simulation cfg env).2 = .error e := by
  obtain ⟨e, he⟩ := fit_loop_cons_error cfg env 0 (List.map Nat.succ (List.range 119))
  refine ⟨e, ?_⟩
  unfold fit_simulation
  have hr := List.range_succ_eq_map 119
  norm_num at hr
  rw [hr]
  simp [he]

/-- The run phase emits no terminal report. -/
theorem fit_simulation_no_terminal (cfg : OptCfg) (env : HookEnv) :
    countTerminal (fit_simulation cfg env).1 = 0 := by
  unfold fit_simulation
  have h := fit_loop_no_terminal cfg env (List.range 120)
  cases hr : (fit_loop cfg env (List.range 120)).2 <;> simpa [hr] using h

/-- C6: each enumerated preparation failure — missing measurement, OS-level
file error while materializing the measured spectrum, simulator subprocess
launch error — makes `start_optimization` emit one FINISHED message carrying
the error payload, invoke the clean-up operation, and return normally
(no retry); a missing measurement fails before any simulator invocation. -/
theorem C6_preparation_failures (cfg : OptCfg) (env : HookEnv)
    (sol : BaseSolution) :
    (env.measurement_present = false →
      start_optimization cfg env none =
        ([Event.onError .finished ("Preparation for optimization failed: "
            ++ pyMsg (.valueError
              "Optimization could not be prepared, no measurement defined.")),
          Event.cleanUp], Except.ok ()) ∧
      Event.simInvoked ∉ (start_optimization cfg env none).1) ∧
    (env.measurement_present = true →
     env.prepare_measured_spectra = .error .osError →
      start_optimization cfg env none =
        ([Event.onError .finished ("Preparation for optimization failed: "
            ++ pyMsg .osError), Event.cleanUp], Except.ok ())) ∧
    (env.measurement_present = true →
     env.prepare_measured_spectra = .ok () →
     env.combine_previous_erd_files = .ok () →
     env.modify_measurement = .ok () →
     env.skip_simulation = false →
     env.run_initial_simulation = .error .subprocessError →
      start_optimization cfg env (some sol) =
        ([Event.simInvoked,
          Event.onError .finished ("Preparation for optimization failed: "
            ++ pyMsg .subprocessError), Event.cleanUp], Except.ok ())) := by
  refine ⟨fun h => ⟨?_, ?_⟩, fun h1 h2 => ?_, fun h1 h2 h3 h4 h5 h6 => ?_⟩
  · simp [start_optimization, prepare_opt, h, catchable]
  · simp [start_optimization, prepare_opt, h, catchable]
  · simp [start_optimization, prepare_opt, h1, h2, catchable]
  · simp [start_optimization, prepare_opt, h1, h2, h3, h4, h5, h6, catchable]

/-- Witness for C6: the three preparation-failure scenarios at concrete
configurations. -/
theorem C6_preparation_failures_witness :
    (start_optimization ⟨.recoil, 9, "two-peak", [], [], false, 1/40⟩
        ⟨false, .ok (), .ok (), .ok (), false, .ok (), .ok [], []⟩ none
      = ([Event.onError .finished ("Preparation for optimization failed: "
          ++ pyMsg (.valueError
            "Optimization could not be prepared, no measurement defined.")),
        Event.cleanUp], Except.ok ()))
    ∧ (start_optimization ⟨.recoil, 9, "two-peak", [], [], false, 1/40⟩
        ⟨true, .error .osError, .ok (), .ok (), false, .ok (), .ok [], []⟩ none
      = ([Event.onError .finished ("Preparation for optimization failed: "
          ++ pyMsg .osError), Event.cleanUp], Except.ok ()))
    ∧ (start_optimization ⟨.recoil, 9, "two-peak", [], [], false, 1/40⟩
        ⟨true, .ok (), .ok (), .ok (), false, .error .subprocessError,
          .ok [], []⟩ (some ⟨[], [], []⟩)
      = ([Event.simInvoked, Event.onError .finished
          ("Preparation for optimization failed: " ++ pyMsg .subprocessError),
        Event.cleanUp], Except.ok ())) :=
  ⟨((C6_preparation_failures _ _ ⟨[], [], []⟩).1 rfl).1,
   (C6_preparation_failures _ _ ⟨[], [], []⟩).2.1 rfl rfl,
   (C6_preparation_failures _ _ ⟨[], [], []⟩).2.2 rfl rfl rfl rfl rfl rfl⟩

/-- C7: a failure path that emits no terminal report.  With preparation
succeeding, the run phase raises (`TypeError` from the first candidate
evaluation) and `start_optimization` propagates it after two simulator
invocations and zero FINISHED reports — refuting the claim that every
failure path ends in a terminal report. -/
theorem C7_counterexample :
    start_optimization ⟨.recoil, 9, "two-peak", [], [], false, 1/40⟩
        ⟨true, .ok (), .ok (), .ok (), false, .ok (),
          .ok [((0:ℚ),1/10),(1,1/10)], [((0:ℚ),1/10),(1,1/10)]⟩ none
      = ([Event.simInvoked, Event.simInvoked], .error .typeError)
    ∧ countTerminal [Event.simInvoked, Event.simInvoked] = 0 :=
  ⟨rfl, rfl⟩

/-- C7 (amended): caught preparation failures (`OSError`, `ValueError`,
`SubprocessError`) end in exactly one terminal FINISHED report and a normal
return; uncaught preparation errors propagate with no terminal report; and
when preparation succeeds, the run phase always raises in this snapshot,
again with no terminal report. -/
theorem C7_amended (cfg : OptCfg) (env : HookEnv)
    (starting : Option BaseSolution) :
    (∀ e, (prepare_opt cfg env starting).2 = .error e → catchable e = true →
      countTerminal (start_optimization cfg env starting).1 = 1 ∧
      (start_optimization cfg env starting).2 = .ok ()) ∧
    (∀ e, (prepare_opt cfg env starting).2 = .error e → catchable e = false →
      countTerminal (start_optimization cfg env starting).1 = 0 ∧
      (start_optimization cfg env starting).2 = .error e) ∧
    (∀ sol, (prepare_opt cfg env starting).2 = .ok sol →
      countTerminal (start_optimization cfg env starting).1 = 0 ∧
      ∃ e, (start_optimization cfg env starting).2 = .error e) := by
  have hprep := prepare_no_terminal cfg env starting
  unfold start_optimization
  refine ⟨fun e hpre hc => ?_, fun e hpre hc => ?_, fun sol hpre => ?_⟩
  · simp only [hpre, hc, if_true]
    refine ⟨?_, trivial⟩
    rw [countTerminal_append, hprep]
    simp [countTerminal, isTerminalReport]
  · simp only [hpre, hc, Bool.false_eq_true, if_false]
    exact ⟨hprep, trivial⟩
  · obtain ⟨e, he⟩ := fit_simulation_errors cfg env
    have hfit := fit_simulation_no_terminal cfg env
    simp only [hpre, optimize_run, he]
    refine ⟨?_, e, rfl⟩
    rw [countTerminal_append, hprep]
    simpa [optimize_run] using hfit

/-- Comparisons of four-decimal-exact values mirror their integer
numerators. -/
theorem intDiv_le {a b : ℤ} : ((a : ℚ)/10000 ≤ (b : ℚ)/10000) ↔ a ≤ b := by
  rw [div_le_div_iff_of_pos_right (by norm_num : (0:ℚ) < 10000)]
  exact_mod_cast Iff.rfl

/-- Strict version of `intDiv_le`. -/
theorem intDiv_lt {a b : ℤ} : ((a : ℚ)/10000 < (b : ℚ)/10000) ↔ a < b := by
  rw [div_lt_div_iff_of_pos_right (by norm_num : (0:ℚ) < 10000)]
  exact_mod_cast Iff.rfl

/-- Equality version of `intDiv_le`. -/
theorem intDiv_inj {a b : ℤ} : ((a : ℚ)/10000 = (b : ℚ)/10000) ↔ a = b := by
  constructor
  · intro h
    exact le_antisymm (intDiv_le.mp h.le) (intDiv_le.mp h.ge)
  · intro h
    rw [h]

/-- A front-padding loop whose condition fails returns the list unchanged. -/
theorem padFront_stop (fuel : Nat) {x target : ℚ} (w : ℚ) (lst : Espe)
    (h : ¬ target ≤ round4 x) :
    padFront fuel x target w lst = some lst := by
  cases fuel <;> simp [padFront, h]

/-- A back-padding loop whose condition fails returns the list unchanged. -/
theorem padBack_stop (fuel : Nat) {x target : ℚ} (w : ℚ) (lst : Espe)
    (h : ¬ round4 x ≤ target) :
    padBack fuel x target w lst = some lst := by
  cases fuel <;> simp [padBack, h]

/-- Inserted grid segments have the expected number of samples. -/
theorem gridPts_length (tz wz : ℤ) (n : Nat) : (gridPts tz wz n).length = n := by
  unfold gridPts
  rw [List.length_map, List.length_range]

/-- The x value of the `i`-th inserted grid sample. -/
theorem gridPts_getD {tz wz : ℤ} {n i : Nat} (h : i < n) :
    (gridPts tz wz n).getD i (0, 0)
      = (((tz + (i : ℤ) * wz : ℤ) : ℚ) / 10000, 0) := by
  unfold gridPts
  rw [List.getD_eq_getElem?_getD, List.getElem?_map, List.getElem?_range h]
  rfl

/-- First component of `gridPts_getD`. -/
theorem gridPts_getD_fst {tz wz : ℤ} {n i : Nat} (h : i < n) :
    ((gridPts tz wz n).getD i (0, 0)).1
      = ((tz + (i : ℤ) * wz : ℤ) : ℚ) / 10000 := by
  rw [gridPts_getD h]

/-- A one-sample grid segment. -/
theorem gridPts_one (tz wz : ℤ) : gridPts tz wz 1 = [((tz : ℚ) / 10000, 0)] := by
  unfold gridPts
  rw [show List.range 1 = [0] from rfl, List.map_cons, List.map_nil]
  norm_num

/-- Peeling the last sample off a grid segment. -/
theorem gridPts_snoc (tz wz : ℤ) (n : Nat) :
    gridPts tz wz (n + 1)
      = gridPts tz wz n ++ [(((tz + (n : ℤ) * wz : ℤ) : ℚ) / 10000, 0)] := by
  unfold gridPts
  rw [List.range_succ, List.map_append]
  rfl

/-- Peeling the first sample off a grid segment. -/
theorem gridPts_cons (tz wz : ℤ) (n : Nat) :
    gridPts tz wz (n + 1)
      = ((tz : ℚ) / 10000, 0) :: gridPts (tz + wz) wz n := by
  unfold gridPts
  rw [List.range_succ_eq_map, List.map_cons, List.map_map]
  refine congrArg₂ _ (by norm_num) ?_
  refine List.map_congr_left fun i _ => ?_
  have h : (tz + (↑(i + 1) : ℤ) * wz) = (tz + wz + (↑i : ℤ) * wz) := by
    push_cast
    ring
  simp [Function.comp, Nat.succ_eq_add_one, h]
  ring

/-- The front-padding loop on a four-decimal-exact grid: starting at
`tz + j·wz` and padding down to target `tz` inserts exactly the grid segment
`tz, tz + wz, …, tz + j·wz` in front of the list. -/
theorem padFront_grid (wz : ℤ) (hw : 0 < wz) :
    ∀ (j fuel : Nat), j < fuel → ∀ (tz : ℤ) (lst : Espe),
      padFront fuel (((tz + (j : ℤ) * wz : ℤ) : ℚ) / 10000) ((tz : ℚ) / 10000)
          ((wz : ℚ) / 10000) lst
        = some (gridPts tz wz (j + 1) ++ lst) := by
  intro j
  induction j with
  | zero =>
    intro fuel hfuel tz lst
    obtain ⟨f, rfl⟩ : ∃ f, fuel = f + 1 := ⟨fuel - 1, by omega⟩
    have hx : ((tz + ((0 : ℕ) : ℤ) * wz : ℤ) : ℚ) / 10000 = (tz : ℚ) / 10000 := by
      push_cast
      ring
    rw [hx]
    simp only [padFront]
    rw [round4_int, if_pos le_rfl]
    have harg : (tz : ℚ)/10000 - (wz : ℚ)/10000 = ((tz - wz : ℤ) : ℚ)/10000 := by
      push_cast
      ring
    rw [harg, padFront_stop]
    · rw [gridPts_one]
      rfl
    · rw [round4_int, intDiv_le]
      omega
  | succ j ih =>
    intro fuel hfuel tz lst
    obtain ⟨f, rfl⟩ : ∃ f, fuel = f + 1 := ⟨fuel - 1, by omega⟩
    simp only [padFront]
    rw [round4_int]
    rw [if_pos (by
      rw [intDiv_le]
      have h0 : (0 : ℤ) ≤ ((j : ℤ) + 1) := by positivity
      nlinarith)]
    have harg : ((tz + (↑(j + 1) : ℤ) * wz : ℤ) : ℚ)/10000 - (wz : ℚ)/10000
        = ((tz + (↑j : ℤ) * wz : ℤ) : ℚ)/10000 := by
      push_cast
      ring
    rw [harg, ih f (by omega) tz _]
    rw [gridPts_snoc tz wz (j + 1)]
    simp [List.append_assoc]

/-- The back-padding loop on a four-decimal-exact grid: starting at `x0z` and
padding up to target `x0z + j·wz` appends exactly the grid segment
`x0z, x0z + wz, …, x0z + j·wz` at the end of the list. -/
theorem padBack_grid (wz : ℤ) (hw : 0 < wz) :
    ∀ (j fuel : Nat), j < fuel → ∀ (x0z : ℤ) (lst : Espe),
      padBack fuel ((x0z : ℚ) / 10000) (((x0z + (j : ℤ) * wz : ℤ) : ℚ) / 10000)
          ((wz : ℚ) / 10000) lst
        = some (lst ++ gridPts x0z wz (j + 1)) := by
  intro j
  induction j with
  | zero =>
    intro fuel hfuel x0z lst
    obtain ⟨f, rfl⟩ : ∃ f, fuel = f + 1 := ⟨fuel - 1, by omega⟩
    have hx : ((x0z + ((0 : ℕ) : ℤ) * wz : ℤ) : ℚ) / 10000 = (x0z : ℚ) / 10000 := by
      push_cast
      ring
    rw [hx]
    simp only [padBack]
    rw [round4_int, if_pos le_rfl]
    have harg : (x0z : ℚ)/10000 + (wz : ℚ)/10000 = ((x0z + wz : ℤ) : ℚ)/10000 := by
      push_cast
      ring
    rw [harg, padBack_stop]
    · rw [gridPts_one]
    · rw [round4_int, intDiv_le]
      omega
  | succ j ih =>
    intro fuel hfuel x0z lst
    obtain ⟨f, rfl⟩ : ∃ f, fuel = f + 1 := ⟨fuel - 1, by omega⟩
    simp only [padBack]
    rw [round4_int]
    rw [if_pos (by
      rw [intDiv_le]
      have h0 : (0 : ℤ) ≤ ((j : ℤ) + 1) := by positivity
      nlinarith)]
    have harg : (x0z : ℚ)/10000 + (wz : ℚ)/10000 = ((x0z + wz : ℤ) : ℚ)/10000 := by
      push_cast
      ring
    have htgt : ((x0z + (↑(j + 1) : ℤ) * wz : ℤ) : ℚ)/10000
        = ((x0z + wz + (↑j : ℤ) * wz : ℤ) : ℚ)/10000 := by
      push_cast
      ring
    rw [harg, htgt, ih f (by omega) (x0z + wz) _]
    rw [gridPts_cons x0z wz (j + 1)]
    simp [List.append_assoc]

/-- Prepending a grid segment to a grid list yields a grid list. -/
theorem isGrid_grid_append {tz wz : ℤ} {l : Espe} (c : Nat)
    (h : IsGrid (tz + (c : ℤ) * wz) wz l) :
    IsGrid tz wz (gridPts tz wz c ++ l) := by
  intro i hi
  rw [List.length_append, gridPts_length] at hi
  by_cases hic : i < c
  · rw [List.getD_append _ _ _ _ (by rw [gridPts_length]; exact hic)]
    exact gridPts_getD_fst hic
  · push_neg at hic
    rw [List.getD_append_right _ _ _ _ (by rw [gridPts_length]; exact hic)]
    rw [gridPts_length, h (i - c) (by omega), intDiv_inj]
    have hcast : ((i - c : ℕ) : ℤ) = (i : ℤ) - (c : ℤ) := by omega
    rw [hcast]
    ring

/-- Appending a continuation grid segment to a grid list yields a grid
list. -/
theorem isGrid_append_grid {az wz : ℤ} {l : Espe} (c : Nat)
    (h : IsGrid az wz l) :
    IsGrid az wz (l ++ gridPts (az + (l.length : ℤ) * wz) wz c) := by
  intro i hi
  rw [List.length_append, gridPts_length] at hi
  by_cases hil : i < l.length
  · rw [List.getD_append _ _ _ _ hil]
    exact h i hil
  · push_neg at hil
    rw [List.getD_append_right _ _ _ _ hil]
    rw [gridPts_getD_fst (by omega), intDiv_inj]
    have hcast : ((i - l.length : ℕ) : ℤ) = (i : ℤ) - (l.length : ℤ) := by omega
    rw [hcast]
    ring

/-- `head?` of a non-empty list, through `getD`. -/
theorem head?_getD {l : Espe} (hl : 0 < l.length) :
    l.head? = some (l.getD 0 (0, 0)) := by
  cases l with
  | nil => simp at hl
  | cons a t => rfl

/-- `getLast?` of a non-empty list, through `getD`. -/
theorem getLast?_getD {l : Espe} (hl : 0 < l.length) :
    l.getLast? = some (l.getD (l.length - 1) (0, 0)) := by
  induction l with
  | nil => simp at hl
  | cons a t ih =>
    cases t with
    | nil => rfl
    | cons b t' =>
      rw [List.getLast?_cons_cons, ih (by simp)]
      congr 1

/-- The front phase of alignment on two spectra living on one uniform
four-decimal-exact grid of spacing `wz/10000`: both results are grids with
the common start `min az bz`, and each keeps its original last sample. -/
theorem uniform_front_grid (az bz wz k : ℤ) (mf ns fuel : Nat)
    (first second : Espe) (hw : 0 < wz)
    (hf : IsGrid az wz first) (hfl : first.length = mf + 1)
    (hs : IsGrid bz wz second) (hsl : second.length = ns + 1)
    (hk : bz - az = k * wz) (hfuel : k.natAbs ≤ fuel) :
    ∃ (f1 s1 : Espe) (mf' ns' : Nat),
      uniform_front fuel first second ((wz : ℚ) / 10000) = some (f1, s1)
      ∧ IsGrid (min az bz) wz f1 ∧ f1.length = mf' + 1
      ∧ min az bz + (mf' : ℤ) * wz = az + (mf : ℤ) * wz
      ∧ IsGrid (min az bz) wz s1 ∧ s1.length = ns' + 1
      ∧ min az bz + (ns' : ℤ) * wz = bz + (ns : ℤ) * wz := by
  have hf0 : first.head? = some (first.getD 0 (0, 0)) := head?_getD (by omega)
  have hs0 : second.head? = some (second.getD 0 (0, 0)) := head?_getD (by omega)
  have hfx : (first.getD 0 (0, 0)).1 = (az : ℚ)/10000 := by
    have h := hf 0 (by omega)
    rw [h]
    norm_num
  have hsx : (second.getD 0 (0, 0)).1 = (bz : ℚ)/10000 := by
    have h := hs 0 (by omega)
    rw [h]
    norm_num
  unfold uniform_front
  simp only [hf0, hs0]
  rw [hfx, hsx]
  rcases lt_trichotomy bz az with hlt | heq | hgt
  · rw [if_pos (intDiv_lt.mpr hlt)]
    have hkneg : k < 0 := by nlinarith
    have hjz : ((k.natAbs - 1 : ℕ) : ℤ) = -k - 1 := by omega
    have harg : (az : ℚ)/10000 - (wz : ℚ)/10000
        = ((bz + ((k.natAbs - 1 : ℕ) : ℤ) * wz : ℤ) : ℚ)/10000 := by
      rw [hjz]
      have hkq : (bz : ℚ) = (az : ℚ) + (k : ℚ) * (wz : ℚ) := by
        exact_mod_cast (by linarith : bz = az + k * wz)
      push_cast
      rw [hkq]
      ring
    rw [harg, padFront_grid wz hw (k.natAbs - 1) fuel (by omega) bz first]
    have hmin : min az bz = bz := min_eq_right hlt.le
    have h2 : bz + ((k.natAbs - 1 + 1 : ℕ) : ℤ) * wz = az := by
      have h3 : ((k.natAbs - 1 + 1 : ℕ) : ℤ) = -k := by omega
      rw [h3]
      linear_combination hk
    refine ⟨gridPts bz wz (k.natAbs - 1 + 1) ++ first, second,
      (k.natAbs - 1 + 1) + mf, ns, rfl, ?_, ?_, ?_, ?_, hsl, ?_⟩
    · rw [hmin]
      refine isGrid_grid_append _ ?_
      rw [h2]
      exact hf
    · rw [List.length_append, gridPts_length, hfl]
      omega
    · rw [hmin]
      have h4 : (((k.natAbs - 1 + 1) + mf : ℕ) : ℤ) = -k + mf := by omega
      rw [h4]
      linear_combination hk
    · rw [hmin]
      exact hs
    · rw [hmin]
  · subst heq
    rw [if_neg (lt_irrefl _), if_neg (lt_irrefl _)]
    refine ⟨first, second, mf, ns, rfl, ?_, hfl, ?_, ?_, hsl, ?_⟩
    · rw [min_self]
      exact hf
    · rw [min_self]
    · rw [min_self]
      exact hs
    · rw [min_self]
  · rw [if_neg (by rw [intDiv_lt]; omega), if_pos (intDiv_lt.mpr hgt)]
    have hkpos : 0 < k := by nlinarith
    have hjz : ((k.natAbs - 1 : ℕ) : ℤ) = k - 1 := by omega
    have harg : (bz : ℚ)/10000 - (wz : ℚ)/10000
        = ((az + ((k.natAbs - 1 : ℕ) : ℤ) * wz : ℤ) : ℚ)/10000 := by
      rw [hjz]
      have hkq : (bz : ℚ) = (az : ℚ) + (k : ℚ) * (wz : ℚ) := by
        exact_mod_cast (by linarith : bz = az + k * wz)
      push_cast
      rw [hkq]
      ring
    rw [harg, padFront_grid wz hw (k.natAbs - 1) fuel (by omega) az second]
    have hmin : min az bz = az := min_eq_left hgt.le
    have h2 : az + ((k.natAbs - 1 + 1 : ℕ) : ℤ) * wz = bz := by
      have h3 : ((k.natAbs - 1 + 1 : ℕ) : ℤ) = k := by omega
      rw [h3]
      linear_combination -hk
    refine ⟨first, gridPts az wz (k.natAbs - 1 + 1) ++ second, mf,
      (k.natAbs - 1 + 1) + ns, rfl, ?_, hfl, ?_, ?_, ?_, ?_⟩
    · rw [hmin]
      exact hf
    · rw [hmin]
    · rw [hmin]
      refine isGrid_grid_append _ ?_
      rw [h2]
      exact hs
    · rw [List.length_append, gridPts_length, hsl]
      omega
    · rw [hmin]
      have h4 : (((k.natAbs - 1 + 1) + ns : ℕ) : ℤ) = k + ns := by omega
      rw [h4]
      linear_combination -hk

/-- The back phase of alignment on two grid spectra with a common start:
the shorter-ranged one is extended to the common end, so both end up with
the same length `max mf ns + 1`. -/
theorem uniform_back_grid (A wz : ℤ) (mf ns fuel : Nat) (f1 s1 : Espe)
    (hw : 0 < wz)
    (hf : IsGrid A wz f1) (hfl : f1.length = mf + 1)
    (hs : IsGrid A wz s1) (hsl : s1.length = ns + 1)
    (hfuel : ((mf : ℤ) - (ns : ℤ)).natAbs ≤ fuel) :
    ∃ f2 s2,
      uniform_back fuel f1 s1 ((wz : ℚ) / 10000) = some (f2, s2)
      ∧ IsGrid A wz f2 ∧ f2.length = max mf ns + 1
      ∧ IsGrid A wz s2 ∧ s2.length = max mf ns + 1 := by
  have hfl0 : f1.getLast? = some (f1.getD (f1.length - 1) (0, 0)) :=
    getLast?_getD (by omega)
  have hsl0 : s1.getLast? = some (s1.getD (s1.length - 1) (0, 0)) :=
    getLast?_getD (by omega)
  have hfx : (f1.getD (f1.length - 1) (0, 0)).1
      = ((A + (mf : ℤ) * wz : ℤ) : ℚ)/10000 := by
    have h := hf (f1.length - 1) (by omega)
    simp only [hfl, Nat.add_sub_cancel] at h
    rw [hfl, Nat.add_sub_cancel]
    exact h
  have hsx : (s1.getD (s1.length - 1) (0, 0)).1
      = ((A + (ns : ℤ) * wz : ℤ) : ℚ)/10000 := by
    have h := hs (s1.length - 1) (by omega)
    simp only [hsl, Nat.add_sub_cancel] at h
    rw [hsl, Nat.add_sub_cancel]
    exact h
  unfold uniform_back
  simp only [hfl0, hsl0]
  rw [hfx, hsx]
  rcases lt_trichotomy ns mf with hlt | heq | hgt
  · have hcast : ((ns : ℤ)) * wz < ((mf : ℤ)) * wz :=
      (mul_lt_mul_right hw).mpr (by exact_mod_cast hlt)
    rw [if_pos (by rw [intDiv_lt]; linarith)]
    have harg : ((A + (ns : ℤ) * wz : ℤ) : ℚ)/10000 + (wz : ℚ)/10000
        = ((A + ((ns : ℤ) + 1) * wz : ℤ) : ℚ)/10000 := by
      push_cast
      ring
    have hjz : ((mf - ns - 1 : ℕ) : ℤ) = (mf : ℤ) - ns - 1 := by omega
    have htgt : ((A + (mf : ℤ) * wz : ℤ) : ℚ)/10000
        = ((A + ((ns : ℤ) + 1) * wz + ((mf - ns - 1 : ℕ) : ℤ) * wz : ℤ) : ℚ)/10000 := by
      rw [hjz]
      push_cast
      ring
    rw [harg, htgt,
      padBack_grid wz hw (mf - ns - 1) fuel (by omega) (A + ((ns : ℤ) + 1) * wz) s1]
    refine ⟨f1, s1 ++ gridPts (A + ((ns : ℤ) + 1) * wz) wz (mf - ns - 1 + 1), rfl,
      hf, ?_, ?_, ?_⟩
    · rw [hfl]
      omega
    · have h2 : A + ((s1.length : ℤ)) * wz = A + ((ns : ℤ) + 1) * wz := by
        rw [hsl]
        push_cast
        ring
      rw [← h2]
      exact isGrid_append_grid _ hs
    · rw [List.length_append, gridPts_length, hsl]
      omega
  · subst heq
    rw [if_neg (lt_irrefl _), if_neg (lt_irrefl _)]
    refine ⟨f1, s1, rfl, hf, ?_, hs, ?_⟩
    · rw [hfl]
      omega
    · rw [hsl]
      omega
  · have hcast : ((mf : ℤ)) * wz < ((ns : ℤ)) * wz :=
      (mul_lt_mul_right hw).mpr (by exact_mod_cast hgt)
    rw [if_neg (by rw [intDiv_lt]; linarith), if_pos (by rw [intDiv_lt]; linarith)]
    have harg : ((A + (mf : ℤ) * wz : ℤ) : ℚ)/10000 + (wz : ℚ)/10000
        = ((A + ((mf : ℤ) + 1) * wz : ℤ) : ℚ)/10000 := by
      push_cast
      ring
    have hjz : ((ns - mf - 1 : ℕ) : ℤ) = (ns : ℤ) - mf - 1 := by omega
    have htgt : ((A + (ns : ℤ) * wz : ℤ) : ℚ)/10000
        = ((A + ((mf : ℤ) + 1) * wz + ((ns - mf - 1 : ℕ) : ℤ) * wz : ℤ) : ℚ)/10000 := by
      rw [hjz]
      push_cast
      ring
    rw [harg, htgt,
      padBack_grid wz hw (ns - mf - 1) fuel (by omega) (A + ((mf : ℤ) + 1) * wz) f1]
    refine ⟨f1 ++ gridPts (A + ((mf : ℤ) + 1) * wz) wz (ns - mf - 1 + 1), s1, rfl,
      ?_, ?_, hs, ?_⟩
    · have h2 : A + ((f1.length : ℤ)) * wz = A + ((mf : ℤ) + 1) * wz := by
        rw [hfl]
        push_cast
        ring
      rw [← h2]
      exact isGrid_append_grid _ hf
    · rw [List.length_append, gridPts_length, hfl]
      omega
    · rw [hsl]
      omega

/-- C2 (amended): when both spectra's x values lie on one common uniform
grid of spacing `channel_width` (four-decimal-exact, starts congruent modulo
the width), `uniform_espe_lists` returns two sequences of equal length whose
first and last x values agree (identical x ranges). -/
theorem C2_amended (az bz wz k : ℤ) (mf ns fuel : Nat) (first second : Espe)
    (hw : 0 < wz)
    (hf : IsGrid az wz first) (hfl : first.length = mf + 1)
    (hs : IsGrid bz wz second) (hsl : second.length = ns + 1)
    (hk : bz - az = k * wz)
    (hfuel1 : k.natAbs ≤ fuel)
    (hfuel2 : ((mf : ℤ) - k - (ns : ℤ)).natAbs ≤ fuel) :
    ∃ f2 s2,
      uniform_espe_lists fuel (first, second) ((wz : ℚ) / 10000) = some (f2, s2)
      ∧ f2.length = s2.length ∧ 0 < f2.length
      ∧ (f2.getD 0 (0, 0)).1 = (s2.getD 0 (0, 0)).1
      ∧ (f2.getD (f2.length - 1) (0, 0)).1
          = (s2.getD (s2.length - 1) (0, 0)).1 := by
  obtain ⟨f1, s1, mf', ns', hfront, hg1, hl1, he1, hg2, hl2, he2⟩ :=
    uniform_front_grid az bz wz k mf ns fuel first second hw hf hfl hs hsl hk hfuel1
  have hdiff : (mf' : ℤ) - (ns' : ℤ) = (mf : ℤ) - k - (ns : ℤ) := by
    have h4 : ((mf' : ℤ) - (ns' : ℤ)) * wz = ((mf : ℤ) - k - (ns : ℤ)) * wz := by
      linear_combination he1 - he2 - hk
    exact mul_right_cancel₀ (by omega) h4
  obtain ⟨f2, s2, hback, hg3, hl3, hg4, hl4⟩ :=
    uniform_back_grid (min az bz) wz mf' ns' fuel f1 s1 hw hg1 hl1 hg2 hl2
      (by rw [hdiff]; exact hfuel2)
  refine ⟨f2, s2, ?_, ?_, ?_, ?_, ?_⟩
  · unfold uniform_espe_lists
    simp only [hfront, hback]
  · rw [hl3, hl4]
  · rw [hl3]
    omega
  · rw [hg3 0 (by rw [hl3]; omega), hg4 0 (by rw [hl4]; omega)]
  · have hi3 : f2.length - 1 = max mf' ns' := by
      rw [hl3]
      omega
    have hi4 : s2.length - 1 = max mf' ns' := by
      rw [hl4]
      omega
    rw [hi3, hi4, hg3 _ (by rw [hl3]; omega), hg4 _ (by rw [hl4]; omega)]

/-- The front-padding loop only ever prepends samples to the list it is
given. -/
theorem padFront_extends :
    ∀ (fuel : Nat) (x target w : ℚ) (lst out : Espe),
      padFront fuel x target w lst = some out → ∃ pre, out = pre ++ lst := by
  intro fuel
  induction fuel with
  | zero =>
    intro x target w lst out h
    unfold padFront at h
    split at h
    · exact absurd h (by simp)
    · refine ⟨[], ?_⟩
      obtain rfl := (Option.some.injEq _ _).mp h
      simp
  | succ f ih =>
    intro x target w lst out h
    unfold padFront at h
    split at h
    · obtain ⟨pre, hpre⟩ := ih _ _ _ _ _ h
      refine ⟨pre ++ [(round4 x, 0)], ?_⟩
      simp [hpre]
    · refine ⟨[], ?_⟩
      obtain rfl := (Option.some.injEq _ _).mp h
      simp

/-- The back-padding loop only ever appends samples to the list it is
given. -/
theorem padBack_extends :
    ∀ (fuel : Nat) (x target w : ℚ) (lst out : Espe),
      padBack fuel x target w lst = some out → ∃ post, out = lst ++ post := by
  intro fuel
  induction fuel with
  | zero =>
    intro x target w lst out h
    unfold padBack at h
    split at h
    · exact absurd h (by simp)
    · refine ⟨[], ?_⟩
      obtain rfl := (Option.some.injEq _ _).mp h
      simp
  | succ f ih =>
    intro x target w lst out h
    unfold padBack at h
    split at h
    · obtain ⟨post, hpost⟩ := ih _ _ _ _ _ h
      refine ⟨(round4 x, 0) :: post, ?_⟩
      simp [hpost]
    · refine ⟨[], ?_⟩
      obtain rfl := (Option.some.injEq _ _).mp h
      simp

/-- The front phase only ever prepends to each spectrum. -/
theorem uniform_front_extends (fuel : Nat) (first second f1 s1 : Espe) (w : ℚ)
    (h : uniform_front fuel first second w = some (f1, s1)) :
    (∃ pre, f1 = pre ++ first) ∧ (∃ pre, s1 = pre ++ second) := by
  unfold uniform_front at h
  split at h
  · split at h
    · split at h
      · exact absurd h (by simp)
      · rename_i first' hpad
        rw [Option.some.injEq, Prod.mk.injEq] at h
        obtain ⟨h1, h2⟩ := h
        obtain ⟨pre, hpre⟩ := padFront_extends _ _ _ _ _ _ hpad
        exact ⟨⟨pre, by rw [← h1]; exact hpre⟩, ⟨[], by rw [← h2]; simp⟩⟩
    · split at h
      · split at h
        · exact absurd h (by simp)
        · rename_i second' hpad
          rw [Option.some.injEq, Prod.mk.injEq] at h
          obtain ⟨h1, h2⟩ := h
          obtain ⟨pre, hpre⟩ := padFront_extends _ _ _ _ _ _ hpad
          exact ⟨⟨[], by rw [← h1]; simp⟩, ⟨pre, by rw [← h2]; exact hpre⟩⟩
      · rw [Option.some.injEq, Prod.mk.injEq] at h
        obtain ⟨h1, h2⟩ := h
        exact ⟨⟨[], by rw [← h1]; simp⟩, ⟨[], by rw [← h2]; simp⟩⟩
  · exact absurd h (by simp)

/-- The back phase only ever appends to each spectrum. -/
theorem uniform_back_extends (fuel : Nat) (first second f1 s1 : Espe) (w : ℚ)
    (h : uniform_back fuel first second w = some (f1, s1)) :
    (∃ post, f1 = first ++ post) ∧ (∃ post, s1 = second ++ post) := by
  unfold uniform_back at h
  split at h
  · split at h
    · split at h
      · exact absurd h (by simp)
      · rename_i second' hpad
        rw [Option.some.injEq, Prod.mk.injEq] at h
        obtain ⟨h1, h2⟩ := h
        obtain ⟨post, hpost⟩ := padBack_extends _ _ _ _ _ _ hpad
        exact ⟨⟨[], by rw [← h1]; simp⟩, ⟨post, by rw [← h2]; exact hpost⟩⟩
    · split at h
      · split at h
        · exact absurd h (by simp)
        · rename_i first' hpad
          rw [Option.some.injEq, Prod.mk.injEq] at h
          obtain ⟨h1, h2⟩ := h
          obtain ⟨post, hpost⟩ := padBack_extends _ _ _ _ _ _ hpad
          exact ⟨⟨post, by rw [← h1]; exact hpost⟩, ⟨[], by rw [← h2]; simp⟩⟩
      · rw [Option.some.injEq, Prod.mk.injEq] at h
        obtain ⟨h1, h2⟩ := h
        exact ⟨⟨[], by rw [← h1]; simp⟩, ⟨[], by rw [← h2]; simp⟩⟩
  · exact absurd h (by simp)

/-- `uniform_espe_lists` never truncates: it only extends each spectrum at
its edges. -/
theorem uniform_espe_lists_extends (fuel : Nat) (lists : Espe × Espe) (w : ℚ)
    (f s : Espe) (h : uniform_espe_lists fuel lists w = some (f, s)) :
    (∃ pre post, f = pre ++ lists.1 ++ post)
    ∧ (∃ pre post, s = pre ++ lists.2 ++ post) := by
  unfold uniform_espe_lists at h
  split at h
  · exact absurd h (by simp)
  · rename_i first' second' hfr
    obtain ⟨⟨p1, hp1⟩, ⟨p2, hp2⟩⟩ :=
      uniform_front_extends _ _ _ _ _ _ hfr
    obtain ⟨⟨q1, hq1⟩, ⟨q2, hq2⟩⟩ :=
      uniform_back_extends _ _ _ _ _ _ h
    refine ⟨⟨p1, q1, ?_⟩, ⟨p2, q2, ?_⟩⟩
    · rw [hq1, hp1]
    · rw [hq2, hp2]

/-- C10 (amended): the reference-level view of `uniform_espe_lists` returns
exactly the two list objects it was passed (`a = r1`, `b = r2`), mutated in
place only by extending their contents at the edges — so the caller's views
(such as the optimizer's stored measured spectrum) change exactly when
padding occurs. -/
theorem C10_amended_frame (fuel : Nat) (h : Heap) (r1 r2 : Nat) (w : ℚ)
    (h' : Heap) (a b : Nat) (hne : r1 ≠ r2)
    (heq : uniform_espe_lists_ref fuel h r1 r2 w = some (h', a, b)) :
    a = r1 ∧ b = r2
    ∧ (∃ pre post, heapGet h' r1 = pre ++ heapGet h r1 ++ post)
    ∧ (∃ pre post, heapGet h' r2 = pre ++ heapGet h r2 ++ post) := by
  unfold uniform_espe_lists_ref at heq
  split at heq
  · exact absurd heq (by simp)
  · rename_i f s hu
    rw [Option.some.injEq, Prod.mk.injEq, Prod.mk.injEq] at heq
    obtain ⟨hh, ha, hb⟩ := heq
    obtain ⟨⟨p1, q1, h1⟩, ⟨p2, q2, h2⟩⟩ :=
      uniform_espe_lists_extends _ _ _ _ _ hu
    refine ⟨ha.symm, hb.symm, ⟨p1, q1, ?_⟩, ⟨p2, q2, ?_⟩⟩
    · rw [← hh]
      simp only [heapGet, heapSet, if_neg hne, if_pos rfl]
      exact h1
    · rw [← hh]
      simp only [heapGet, heapSet, if_pos rfl]
      exact h2

/-- Witness for C10 (amended), applied to an aligned pair of list objects in
a two-cell heap. -/
theorem C10_amended_frame_witness :
    ∃ pre post,
      heapGet (heapSet (heapSet
          (fun r => if r = 0 then [((0:ℚ),2),(1,3)] else [((0:ℚ),5),(1,7)])
          0 [((0:ℚ),2),(1,3)]) 1 [((0:ℚ),5),(1,7)]) 1
        = pre
          ++ heapGet
            (fun r => if r = 0 then [((0:ℚ),2),(1,3)] else [((0:ℚ),5),(1,7)]) 1
          ++ post :=
  (C10_amended_frame 3
    (fun r => if r = 0 then [((0:ℚ),2),(1,3)] else [((0:ℚ),5),(1,7)])
    0 1 1 _ 0 1 (by decide) rfl).2.2.2

/-- C10: the claim that the caller's views are modified by *every* alignment
call fails — a call on an already-aligned pair returns the same references
with both contents unchanged. -/
theorem C10_counterexample :
    ∃ h', uniform_espe_lists_ref 3
        (fun r => if r = 0 then [((0:ℚ),2),(1,3)] else [((0:ℚ),5),(1,7)]) 0 1 1
      = some (h', 0, 1)
    ∧ heapGet h' 0 = [((0:ℚ),2),(1,3)]
    ∧ heapGet h' 1 = [((0:ℚ),5),(1,7)] :=
  ⟨_, rfl, rfl, rfl⟩

/-- Witness for C2 (amended): two one-sample spectra on the common grid of
spacing `1/10000`, starting two channels apart. -/
theorem C2_amended_witness :
    ∃ f2 s2,
      uniform_espe_lists 2 ([((0 : ℚ), 5)], [((2 : ℚ)/10000, 7)])
          (((1 : ℤ) : ℚ) / 10000) = some (f2, s2)
      ∧ f2.length = s2.length ∧ 0 < f2.length
      ∧ (f2.getD 0 (0, 0)).1 = (s2.getD 0 (0, 0)).1
      ∧ (f2.getD (f2.length - 1) (0, 0)).1
          = (s2.getD (s2.length - 1) (0, 0)).1 :=
  C2_amended 0 2 1 2 0 0 2 [((0 : ℚ), 5)] [((2 : ℚ)/10000, 7)]
    (by decide) (by simp [IsGrid]) rfl (by simp [IsGrid]) rfl
    (by decide) (by decide) (by decide)

/-- Witness for C7 (amended): the mid-run-failure branch at a concrete
configuration with an echoing simulator stub. -/
theorem C7_amended_witness :
    countTerminal (start_optimization ⟨.recoil, 9, "two-peak", [], [], false, 1/40⟩
        ⟨true, .ok (), .ok (), .ok (), false, .ok (),
          .ok [((0:ℚ),1/10),(1,1/10)], [((0:ℚ),1/10),(1,1/10)]⟩ none).1 = 0
    ∧ ∃ e, (start_optimization ⟨.recoil, 9, "two-peak", [], [], false, 1/40⟩
        ⟨true, .ok (), .ok (), .ok (), false, .ok (),
          .ok [((0:ℚ),1/10),(1,1/10)], [((0:ℚ),1/10),(1,1/10)]⟩ none).2 = .error e :=
  (C7_amended ⟨.recoil, 9, "two-peak", [], [], false, 1/40⟩
    ⟨true, .ok (), .ok (), .ok (), false, .ok (),
      .ok [((0:ℚ),1/10),(1,1/10)], [((0:ℚ),1/10),(1,1/10)]⟩ none).2.2 _ rfl

end Potku
